import Mathlib

/-!
Shallow embedding of the polyfill analysis in `src/tools/witx/src/polyfill.rs`:
matching an old interface module against a new one, classifying parameter and
result compatibility through a representability verdict, and rendering a
textual compatibility report.

The collaborators the analysis consumes but does not implement (identifiers,
documents, modules, type references, the representability relation) are not
under `src/`; they are modelled from the specification, each with a doc
comment saying so.  The representability relation itself is kept abstract: the
definitions below are parameterised by a function `rep : Ty → Ty → RepEquality`.
-/

namespace Witx

/-- Modelled from the spec: the three-way representability verdict consumed as
an external capability (`RepEquality` in the source crate, not under `src/`). -/
inductive RepEquality where
  | Eq
  | Superset
  | NotEq
deriving DecidableEq

/-- Modelled from the spec: an identifier, a normalized name compared by its
string form (`Id` in the source crate, not under `src/`). -/
structure Id where
  val : String
deriving DecidableEq

/-- `Id::new`, modelled from the spec: wraps the given string. -/
def Id.new (s : String) : Id := ⟨s⟩

/-- `Id::as_str`, modelled from the spec: the underlying string. -/
def Id.as_str (i : Id) : String := i.val

/-- Modelled from the spec: a type reference, consumed only through the
capabilities `type_()` (the referred-to type) and `type_name()` (a printable
name); `TypeRef` in the source crate is not under `src/`. -/
structure TypeRef (Ty : Type) where
  ty : Ty
  tyName : String
deriving DecidableEq

/-- `TypeRef::type_`, modelled from the spec: the referred-to type. -/
def TypeRef.type_ {Ty : Type} (t : TypeRef Ty) : Ty := t.ty

/-- `TypeRef::type_name`, modelled from the spec: a printable type name. -/
def TypeRef.type_name {Ty : Type} (t : TypeRef Ty) : String := t.tyName

/-- Modelled from the spec: one named, typed parameter or result
(`InterfaceFuncParam` in the source crate, not under `src/`). -/
structure InterfaceFuncParam (Ty : Type) where
  name : Id
  tref : TypeRef Ty
deriving DecidableEq

/-- Modelled from the spec: a named callable signature with ordered named
parameters and ordered named results (`InterfaceFunc`, not under `src/`). -/
structure InterfaceFunc (Ty : Type) where
  name : Id
  params : List (InterfaceFuncParam Ty)
  results : List (InterfaceFuncParam Ty)
deriving DecidableEq

/-- Modelled from the spec: a named group of interface functions
(`Module`, not under `src/`). -/
structure Module (Ty : Type) where
  name : Id
  funcs : List (InterfaceFunc Ty)
deriving DecidableEq

/-- Modelled from the spec: `Module::func` looks a function up by name
(first function declared with that name). -/
def Module.func {Ty : Type} (m : Module Ty) (name : Id) :
    Option (InterfaceFunc Ty) :=
  m.funcs.find? (fun f => f.name == name)

/-- Modelled from the spec: a parsed interface-definition document owning
named modules (`Document`, not under `src/`). -/
structure Document (Ty : Type) where
  modules : List (Module Ty)
deriving DecidableEq

/-- Modelled from the spec: `Document::module` looks a module up by name. -/
def Document.module {Ty : Type} (d : Document Ty) (name : Id) :
    Option (Module Ty) :=
  d.modules.find? (fun m => m.name == name)

/-- `PolyfillError` from `polyfill.rs`: the two construction failures. -/
inductive PolyfillError where
  | ModuleNotPresent (name : Id)
  | FuncNotPresent (name : Id)
deriving DecidableEq

/-- The human-readable rendering of `PolyfillError`.  The source attaches the
format strings through the error derive (`"Module not present: ..."`,
`"Function not present: ..."`), interpolating the name.  Modelled from the
spec: the rendering of `Id` itself is code not under `src/` (the attribute
formats the name with its debug form); per the spec the name renders as its
plain string. -/
def PolyfillError.display : PolyfillError → String
  | .ModuleNotPresent name => "Module not present: " ++ name.as_str
  | .FuncNotPresent name => "Function not present: " ++ name.as_str

/-- `ParamPolyfill` from `polyfill.rs`: a matched (new, old) parameter or
result pair together with its representability verdict. -/
structure ParamPolyfill (Ty : Type) where
  new : InterfaceFuncParam Ty
  old : InterfaceFuncParam Ty
  repeq : RepEquality
deriving DecidableEq

/-- `ParamPolyfill::full_compat` from `polyfill.rs`. -/
def ParamPolyfill.full_compat {Ty : Type} (p : ParamPolyfill Ty) : Bool :=
  p.new.name == p.old.name && p.repeq == RepEquality.Eq

/-- `ParamPolyfill::report` from `polyfill.rs`. -/
def ParamPolyfill.report {Ty : Type} (p : ParamPolyfill Ty) : String :=
  let name :=
    if p.new.name != p.old.name then
      p.old.name.as_str ++ " => " ++ p.new.name.as_str
    else
      p.new.name.as_str
  let cls :=
    match p.repeq with
    | RepEquality.Eq => "compatible types"
    | RepEquality.Superset =>
        p.old.tref.type_name ++ " is superset-compatible with "
          ++ p.new.tref.type_name
    | RepEquality.NotEq =>
        p.old.tref.type_name ++ " is incompatible with new "
          ++ p.new.tref.type_name
  name ++ ": " ++ cls

/-- `ParamUnknown` from `polyfill.rs`: a parameter or result present on only
one side, tagged by side. -/
inductive ParamUnknown (Ty : Type) where
  | Old (p : InterfaceFuncParam Ty)
  | New (p : InterfaceFuncParam Ty)
deriving DecidableEq

/-- `ParamUnknown::which` from `polyfill.rs`. -/
def ParamUnknown.which {Ty : Type} : ParamUnknown Ty → String
  | .Old _ => "old"
  | .New _ => "new"

/-- `ParamUnknown::param` from `polyfill.rs`. -/
def ParamUnknown.param {Ty : Type} :
    ParamUnknown Ty → InterfaceFuncParam Ty
  | .Old p => p
  | .New p => p

/-- Verification-side helper: the wrapped parameter when the tag is `Old`. -/
def ParamUnknown.getOld {Ty : Type} :
    ParamUnknown Ty → Option (InterfaceFuncParam Ty)
  | .Old p => some p
  | .New _ => none

/-- Verification-side helper: the wrapped parameter when the tag is `New`. -/
def ParamUnknown.getNew {Ty : Type} :
    ParamUnknown Ty → Option (InterfaceFuncParam Ty)
  | .Old _ => none
  | .New p => some p

/-- `FuncPolyfill` from `polyfill.rs`. -/
structure FuncPolyfill (Ty : Type) where
  new : InterfaceFunc Ty
  old : InterfaceFunc Ty
  mapped_params : List (ParamPolyfill Ty)
  unknown_params : List (ParamUnknown Ty)
  mapped_results : List (ParamPolyfill Ty)
  unknown_results : List (ParamUnknown Ty)
deriving DecidableEq

/-- Body of the first parameter loop of `FuncPolyfill::new`: match one old
parameter against the new function's parameter list; on a hit push a
`ParamPolyfill` whose verdict has the old type as source and the new type as
target, on a miss push `ParamUnknown::Old`. -/
def paramStep {Ty : Type} (rep : Ty → Ty → RepEquality)
    (newf : InterfaceFunc Ty)
    (acc : List (ParamPolyfill Ty) × List (ParamUnknown Ty))
    (old_param : InterfaceFuncParam Ty) :
    List (ParamPolyfill Ty) × List (ParamUnknown Ty) :=
  match newf.params.find? (fun p => p.name == old_param.name) with
  | some new_param =>
      (acc.1 ++ [{ new := new_param, old := old_param,
                   repeq := rep old_param.tref.type_ new_param.tref.type_ }],
       acc.2)
  | none => (acc.1, acc.2 ++ [ParamUnknown.Old old_param])

/-- Body of the second parameter loop of `FuncPolyfill::new`: a new parameter
covered by no mapped pair becomes `ParamUnknown::New`. -/
def unknownParamStep {Ty : Type} (mapped : List (ParamPolyfill Ty))
    (acc : List (ParamUnknown Ty)) (new_param : InterfaceFuncParam Ty) :
    List (ParamUnknown Ty) :=
  if (mapped.find? (fun m => m.new.name == new_param.name)).isNone then
    acc ++ [ParamUnknown.New new_param]
  else acc

/-- Body of the first result loop of `FuncPolyfill::new`: match one new
result against the old function's result list; on a hit the verdict has the
new type as source and the old type as target (direction reversed relative to
parameters), on a miss push `ParamUnknown::New`. -/
def resultStep {Ty : Type} (rep : Ty → Ty → RepEquality)
    (oldf : InterfaceFunc Ty)
    (acc : List (ParamPolyfill Ty) × List (ParamUnknown Ty))
    (new_result : InterfaceFuncParam Ty) :
    List (ParamPolyfill Ty) × List (ParamUnknown Ty) :=
  match oldf.results.find? (fun p => p.name == new_result.name) with
  | some old_result =>
      (acc.1 ++ [{ new := new_result, old := old_result,
                   repeq := rep new_result.tref.type_ old_result.tref.type_ }],
       acc.2)
  | none => (acc.1, acc.2 ++ [ParamUnknown.New new_result])

/-- Body of the second result loop of `FuncPolyfill::new`: an old result
covered by no mapped pair becomes `ParamUnknown::Old`. -/
def unknownResultStep {Ty : Type} (mapped : List (ParamPolyfill Ty))
    (acc : List (ParamUnknown Ty)) (old_result : InterfaceFuncParam Ty) :
    List (ParamUnknown Ty) :=
  if (mapped.find? (fun m => m.old.name == old_result.name)).isNone then
    acc ++ [ParamUnknown.Old old_result]
  else acc

/-- `FuncPolyfill::new` from `polyfill.rs` (named `build` because the Lean
structure already owns `FuncPolyfill.new` as the projection of its `new`
field): two parameter loops followed by two result loops, each pushing onto
vectors, here rendered as left folds over the same lists in the same order. -/
def FuncPolyfill.build {Ty : Type} (rep : Ty → Ty → RepEquality)
    (newf oldf : InterfaceFunc Ty) : FuncPolyfill Ty :=
  let pass1 := oldf.params.foldl (paramStep rep newf) ([], [])
  let mapped_params := pass1.1
  let unknown_params := newf.params.foldl (unknownParamStep mapped_params) pass1.2
  let pass2 := newf.results.foldl (resultStep rep oldf) ([], [])
  let mapped_results := pass2.1
  let unknown_results := oldf.results.foldl (unknownResultStep mapped_results) pass2.2
  { new := newf, old := oldf,
    mapped_params := mapped_params, unknown_params := unknown_params,
    mapped_results := mapped_results, unknown_results := unknown_results }

/-- `FuncPolyfill::full_compat` from `polyfill.rs`. -/
def FuncPolyfill.full_compat {Ty : Type} (f : FuncPolyfill Ty) : Bool :=
  f.new.name == f.old.name
    && f.mapped_params.all (fun p => p.full_compat)
    && f.unknown_params.isEmpty
    && f.mapped_results.all (fun p => p.full_compat)
    && f.unknown_results.isEmpty

/-- `Vec::join` as used by the report code: concatenation interleaved with a
separator. -/
def joinSep (sep : String) : List String → String
  | [] => ""
  | [s] => s
  | s :: t :: rest => s ++ sep ++ joinSep sep (t :: rest)

/-- The header name computed inside `FuncPolyfill::report`: the rename form
`"<old> => <new>"` when the names differ, the bare new name otherwise. -/
def FuncPolyfill.reportName {Ty : Type} (f : FuncPolyfill Ty) : String :=
  if f.new.name != f.old.name then
    f.old.name.as_str ++ " => " ++ f.new.name.as_str
  else
    f.new.name.as_str

/-- The `contents` vector built by `FuncPolyfill::report` in its four push
loops, in push order: mapped parameters, unknown parameters, mapped results,
unknown results. -/
def FuncPolyfill.reportContents {Ty : Type} (f : FuncPolyfill Ty) :
    List String :=
  f.mapped_params.map (fun p =>
    if !p.full_compat then "param " ++ p.report
    else "param " ++ p.new.name.as_str ++ ": compatible")
  ++ f.unknown_params.map (fun u =>
    u.which ++ " param " ++ u.param.name.as_str ++ ": no corresponding result!")
  ++ f.mapped_results.map (fun r =>
    if !r.full_compat then "result " ++ r.report
    else "result " ++ r.new.name.as_str ++ ": compatible")
  ++ f.unknown_results.map (fun u =>
    u.which ++ " result " ++ u.param.name.as_str ++ ": no corresponding result!")

/-- `FuncPolyfill::report` from `polyfill.rs`. -/
def FuncPolyfill.report {Ty : Type} (f : FuncPolyfill Ty) : String :=
  if f.full_compat then f.new.name.as_str ++ ": full compatibility"
  else
    let contents := f.reportContents
    let contentsStr :=
      if contents.isEmpty then "" else ":\n\t\t" ++ joinSep "\n\t\t" contents
    f.reportName ++ contentsStr

/-- `ModulePolyfill` from `polyfill.rs`. -/
structure ModulePolyfill (Ty : Type) where
  new : Module Ty
  old : Module Ty
  funcs : List (FuncPolyfill Ty)
deriving DecidableEq

/-- The loop of `ModulePolyfill::new`: one `FuncPolyfill` per old function in
declaration order, failing on the first old function with no same-named new
function. -/
def modFuncs {Ty : Type} (rep : Ty → Ty → RepEquality) (newm : Module Ty) :
    List (InterfaceFunc Ty) → Except PolyfillError (List (FuncPolyfill Ty))
  | [] => Except.ok []
  | oldfunc :: rest =>
    match newm.func oldfunc.name with
    | none => Except.error (PolyfillError.FuncNotPresent oldfunc.name)
    | some newfunc =>
      match modFuncs rep newm rest with
      | Except.error e => Except.error e
      | Except.ok fs => Except.ok (FuncPolyfill.build rep newfunc oldfunc :: fs)

/-- `ModulePolyfill::new` from `polyfill.rs` (named `build`; see
`FuncPolyfill.build`). -/
def ModulePolyfill.build {Ty : Type} (rep : Ty → Ty → RepEquality)
    (newm oldm : Module Ty) : Except PolyfillError (ModulePolyfill Ty) :=
  match modFuncs rep newm oldm.funcs with
  | Except.error e => Except.error e
  | Except.ok fs => Except.ok { new := newm, old := oldm, funcs := fs }

/-- `ModulePolyfill::report` from `polyfill.rs`. -/
def ModulePolyfill.report {Ty : Type} (m : ModulePolyfill Ty) : String :=
  "Implement module " ++ m.new.name.as_str ++ " in terms of "
    ++ m.old.name.as_str ++ ":\n\t"
    ++ joinSep "\n\t" (m.funcs.map (fun f => f.report))

/-- `Polyfill` from `polyfill.rs`. -/
structure Polyfill (Ty : Type) where
  modules : List (ModulePolyfill Ty)
deriving DecidableEq

/-- The loop of `Polyfill::new` over the module mapping.  The source iterates
a `HashMap` whose iteration order is unspecified; the mapping is taken here
as a list of (new-name, old-name) pairs in iteration order.  For each entry
the new-side module is resolved first, then the old-side one, then the module
polyfill is built, any failure aborting the whole construction. -/
def polyModules {Ty : Type} (rep : Ty → Ty → RepEquality)
    (newd oldd : Document Ty) :
    List (String × String) → Except PolyfillError (List (ModulePolyfill Ty))
  | [] => Except.ok []
  | (newname, oldname) :: rest =>
    let newname := Id.new newname
    let oldname := Id.new oldname
    match newd.module newname with
    | none => Except.error (PolyfillError.ModuleNotPresent newname)
    | some newmod =>
      match oldd.module oldname with
      | none => Except.error (PolyfillError.ModuleNotPresent oldname)
      | some oldmod =>
        match ModulePolyfill.build rep newmod oldmod with
        | Except.error e => Except.error e
        | Except.ok m =>
          match polyModules rep newd oldd rest with
          | Except.error e => Except.error e
          | Except.ok ms => Except.ok (m :: ms)

/-- `Polyfill::new` from `polyfill.rs`. -/
def Polyfill.new {Ty : Type} (rep : Ty → Ty → RepEquality)
    (newd oldd : Document Ty) (module_mapping : List (String × String)) :
    Except PolyfillError (Polyfill Ty) :=
  match polyModules rep newd oldd module_mapping with
  | Except.error e => Except.error e
  | Except.ok ms => Except.ok { modules := ms }

/-- `Polyfill::report` from `polyfill.rs`. -/
def Polyfill.report {Ty : Type} (p : Polyfill Ty) : String :=
  joinSep "\n" (p.modules.map (fun m => m.report))

/-! ## Characterizations of the matching loops -/

/-- The outcome of the first parameter loop's body for one old parameter, as
an optional mapped pair: `some` exactly when a same-named new parameter is
found (the first one, by `find?`). -/
def matchParam {Ty : Type} (rep : Ty → Ty → RepEquality)
    (newf : InterfaceFunc Ty) (old_param : InterfaceFuncParam Ty) :
    Option (ParamPolyfill Ty) :=
  (newf.params.find? (fun p => p.name == old_param.name)).map
    (fun new_param =>
      { new := new_param, old := old_param,
        repeq := rep old_param.tref.type_ new_param.tref.type_ })

/-- The outcome of the first result loop's body for one new result. -/
def matchResult {Ty : Type} (rep : Ty → Ty → RepEquality)
    (oldf : InterfaceFunc Ty) (new_result : InterfaceFuncParam Ty) :
    Option (ParamPolyfill Ty) :=
  (oldf.results.find? (fun p => p.name == new_result.name)).map
    (fun old_result =>
      { new := new_result, old := old_result,
        repeq := rep new_result.tref.type_ old_result.tref.type_ })

theorem foldl_paramStep {Ty : Type} (rep : Ty → Ty → RepEquality)
    (newf : InterfaceFunc Ty) (l : List (InterfaceFuncParam Ty))
    (m : List (ParamPolyfill Ty)) (u : List (ParamUnknown Ty)) :
    l.foldl (paramStep rep newf) (m, u) =
      (m ++ l.filterMap (matchParam rep newf),
       u ++ (l.filter
          (fun op => (newf.params.find? (fun p => p.name == op.name)).isNone)).map
          ParamUnknown.Old) := by
  induction l generalizing m u with
  | nil => simp
  | cons op rest ih =>
    simp only [List.foldl_cons]
    cases h : newf.params.find? (fun p => p.name == op.name) with
    | none =>
      simp [paramStep, h, ih, matchParam, List.filterMap_cons, List.filter_cons]
    | some np =>
      simp [paramStep, h, ih, matchParam, List.filterMap_cons, List.filter_cons]

theorem foldl_unknownParamStep {Ty : Type} (mapped : List (ParamPolyfill Ty))
    (l : List (InterfaceFuncParam Ty)) (u : List (ParamUnknown Ty)) :
    l.foldl (unknownParamStep mapped) u =
      u ++ (l.filter
          (fun np => (mapped.find? (fun m => m.new.name == np.name)).isNone)).map
          ParamUnknown.New := by
  induction l generalizing u with
  | nil => simp
  | cons np rest ih =>
    simp only [List.foldl_cons]
    by_cases h : (mapped.find? (fun m => m.new.name == np.name)).isNone
    · simp [unknownParamStep, h, ih, List.filter_cons]
    · simp [unknownParamStep, h, ih, List.filter_cons]

theorem foldl_resultStep {Ty : Type} (rep : Ty → Ty → RepEquality)
    (oldf : InterfaceFunc Ty) (l : List (InterfaceFuncParam Ty))
    (m : List (ParamPolyfill Ty)) (u : List (ParamUnknown Ty)) :
    l.foldl (resultStep rep oldf) (m, u) =
      (m ++ l.filterMap (matchResult rep oldf),
       u ++ (l.filter
          (fun nr => (oldf.results.find? (fun p => p.name == nr.name)).isNone)).map
          ParamUnknown.New) := by
  induction l generalizing m u with
  | nil => simp
  | cons nr rest ih =>
    simp only [List.foldl_cons]
    cases h : oldf.results.find? (fun p => p.name == nr.name) with
    | none =>
      simp [resultStep, h, ih, matchResult, List.filterMap_cons, List.filter_cons]
    | some orr =>
      simp [resultStep, h, ih, matchResult, List.filterMap_cons, List.filter_cons]

theorem foldl_unknownResultStep {Ty : Type} (mapped : List (ParamPolyfill Ty))
    (l : List (InterfaceFuncParam Ty)) (u : List (ParamUnknown Ty)) :
    l.foldl (unknownResultStep mapped) u =
      u ++ (l.filter
          (fun o => (mapped.find? (fun m => m.old.name == o.name)).isNone)).map
          ParamUnknown.Old := by
  induction l generalizing u with
  | nil => simp
  | cons o rest ih =>
    simp only [List.foldl_cons]
    by_cases h : (mapped.find? (fun m => m.old.name == o.name)).isNone
    · simp [unknownResultStep, h, ih, List.filter_cons]
    · simp [unknownResultStep, h, ih, List.filter_cons]

theorem build_new {Ty : Type} (rep : Ty → Ty → RepEquality)
    (newf oldf : InterfaceFunc Ty) :
    (FuncPolyfill.build rep newf oldf).new = newf := rfl

theorem build_old {Ty : Type} (rep : Ty → Ty → RepEquality)
    (newf oldf : InterfaceFunc Ty) :
    (FuncPolyfill.build rep newf oldf).old = oldf := rfl

theorem build_mapped_params {Ty : Type} (rep : Ty → Ty → RepEquality)
    (newf oldf : InterfaceFunc Ty) :
    (FuncPolyfill.build rep newf oldf).mapped_params =
      oldf.params.filterMap (matchParam rep newf) := by
  simp [FuncPolyfill.build, foldl_paramStep]

theorem build_unknown_params {Ty : Type} (rep : Ty → Ty → RepEquality)
    (newf oldf : InterfaceFunc Ty) :
    (FuncPolyfill.build rep newf oldf).unknown_params =
      (oldf.params.filter
          (fun op => (newf.params.find? (fun p => p.name == op.name)).isNone)).map
          ParamUnknown.Old
      ++ (newf.params.filter
          (fun np => ((oldf.params.filterMap (matchParam rep newf)).find?
            (fun m => m.new.name == np.name)).isNone)).map
          ParamUnknown.New := by
  simp [FuncPolyfill.build, foldl_paramStep, foldl_unknownParamStep]

theorem build_mapped_results {Ty : Type} (rep : Ty → Ty → RepEquality)
    (newf oldf : InterfaceFunc Ty) :
    (FuncPolyfill.build rep newf oldf).mapped_results =
      newf.results.filterMap (matchResult rep oldf) := by
  simp [FuncPolyfill.build, foldl_resultStep]

theorem build_unknown_results {Ty : Type} (rep : Ty → Ty → RepEquality)
    (newf oldf : InterfaceFunc Ty) :
    (FuncPolyfill.build rep newf oldf).unknown_results =
      (newf.results.filter
          (fun nr => (oldf.results.find? (fun p => p.name == nr.name)).isNone)).map
          ParamUnknown.New
      ++ (oldf.results.filter
          (fun o => ((newf.results.filterMap (matchResult rep oldf)).find?
            (fun m => m.old.name == o.name)).isNone)).map
          ParamUnknown.Old := by
  simp [FuncPolyfill.build, foldl_resultStep, foldl_unknownResultStep]

theorem map_old_filterMap_matchParam {Ty : Type} (rep : Ty → Ty → RepEquality)
    (newf : InterfaceFunc Ty) (l : List (InterfaceFuncParam Ty)) :
    (l.filterMap (matchParam rep newf)).map (fun pp => pp.old) =
      l.filter
        (fun op => (newf.params.find? (fun p => p.name == op.name)).isSome) := by
  induction l with
  | nil => simp
  | cons op rest ih =>
    cases h : newf.params.find? (fun p => p.name == op.name) <;>
      simp [matchParam, h, ih, List.filterMap_cons, List.filter_cons]

theorem map_new_filterMap_matchResult {Ty : Type} (rep : Ty → Ty → RepEquality)
    (oldf : InterfaceFunc Ty) (l : List (InterfaceFuncParam Ty)) :
    (l.filterMap (matchResult rep oldf)).map (fun pp => pp.new) =
      l.filter
        (fun nr => (oldf.results.find? (fun p => p.name == nr.name)).isSome) := by
  induction l with
  | nil => simp
  | cons nr rest ih =>
    cases h : oldf.results.find? (fun p => p.name == nr.name) <;>
      simp [matchResult, h, ih, List.filterMap_cons, List.filter_cons]

/-! ## Concrete fixtures used by the witnesses -/

/-- A concrete type reference standing for `int32`. -/
def tyI32 : TypeRef Nat := { ty := 32, tyName := "int32" }

/-- A concrete type reference standing for `int64`. -/
def tyI64 : TypeRef Nat := { ty := 64, tyName := "int64" }

/-- A concrete representability relation on the fixture types: equal types are
`Eq`, a smaller width is `Superset`-representable in a larger one. -/
def repNat : Nat → Nat → RepEquality := fun a b =>
  if a = b then RepEquality.Eq
  else if a ≤ b then RepEquality.Superset
  else RepEquality.NotEq

/-- Fixture parameter `a: int32`. -/
def pA32 : InterfaceFuncParam Nat := { name := Id.new "a", tref := tyI32 }

/-- Fixture parameter `a: int64`. -/
def pA64 : InterfaceFuncParam Nat := { name := Id.new "a", tref := tyI64 }

/-- Fixture result `b: int32`. -/
def pB32 : InterfaceFuncParam Nat := { name := Id.new "b", tref := tyI32 }

/-- Fixture parameter `x: int32`, present only on the old side. -/
def pX32 : InterfaceFuncParam Nat := { name := Id.new "x", tref := tyI32 }

/-- Fixture parameter `y: int32`, present only on the new side. -/
def pY32 : InterfaceFuncParam Nat := { name := Id.new "y", tref := tyI32 }

/-- The mapped pair produced for parameter `a` on the fixture functions. -/
def ppA : ParamPolyfill Nat :=
  { new := pA64, old := pA32, repeq := RepEquality.Superset }

/-- Old fixture function `foo(a: int32, x: int32) -> (b: int32)`. -/
def oldFoo : InterfaceFunc Nat :=
  { name := Id.new "foo", params := [pA32, pX32], results := [pB32] }

/-- New fixture function `foo(a: int64, y: int32) -> (b: int32)`. -/
def newFoo : InterfaceFunc Nat :=
  { name := Id.new "foo", params := [pA64, pY32], results := [pB32] }

/-! ## The claims -/

/-- C1: in `FuncPolyfill::new`, every mapped parameter pair carries the
representability verdict with the old parameter's type as source and the new
parameter's type as target, and every mapped result pair carries the verdict
with the new result's type as source and the old result's type as target
(direction reversed relative to parameters). -/
theorem spec_c1 {Ty : Type} (rep : Ty → Ty → RepEquality)
    (newf oldf : InterfaceFunc Ty) :
    (∀ pp ∈ (FuncPolyfill.build rep newf oldf).mapped_params,
        pp.repeq = rep pp.old.tref.type_ pp.new.tref.type_)
    ∧ (∀ pp ∈ (FuncPolyfill.build rep newf oldf).mapped_results,
        pp.repeq = rep pp.new.tref.type_ pp.old.tref.type_) := by
  constructor
  · intro pp hpp
    rw [build_mapped_params] at hpp
    rcases List.mem_filterMap.1 hpp with ⟨op, _, hm⟩
    simp only [matchParam] at hm
    rcases Option.map_eq_some'.1 hm with ⟨np, _, rfl⟩
    rfl
  · intro pp hpp
    rw [build_mapped_results] at hpp
    rcases List.mem_filterMap.1 hpp with ⟨nr, _, hm⟩
    simp only [matchResult] at hm
    rcases Option.map_eq_some'.1 hm with ⟨o, _, rfl⟩
    rfl

/-- Witness for C1 on the fixture functions: the mapped pair for parameter
`a` indeed carries `repNat int32 int64` with the old type as source. -/
theorem spec_c1_witness :
    ppA.repeq = repNat ppA.old.tref.type_ ppA.new.tref.type_ :=
  (spec_c1 repNat newFoo oldFoo).1 ppA (by decide)

/-- C5: the fixed human-readable renderings of the two error kinds. -/
theorem spec_c5 :
    (∀ name : Id,
        (PolyfillError.ModuleNotPresent name).display
          = "Module not present: " ++ name.as_str)
    ∧ (∀ name : Id,
        (PolyfillError.FuncNotPresent name).display
          = "Function not present: " ++ name.as_str) :=
  ⟨fun _ => rfl, fun _ => rfl⟩

/-- C6: `FuncPolyfill::full_compat` holds exactly when the names agree, every
mapped parameter and result pair has an unchanged name and verdict `Eq`, and
both unknown lists are empty. -/
theorem spec_c6 {Ty : Type} (f : FuncPolyfill Ty) :
    f.full_compat = true ↔
      (f.new.name = f.old.name
        ∧ (∀ p ∈ f.mapped_params, p.new.name = p.old.name ∧ p.repeq = RepEquality.Eq)
        ∧ f.unknown_params = []
        ∧ (∀ p ∈ f.mapped_results, p.new.name = p.old.name ∧ p.repeq = RepEquality.Eq)
        ∧ f.unknown_results = []) := by
  simp [FuncPolyfill.full_compat, ParamPolyfill.full_compat, List.all_eq_true,
    List.isEmpty_iff, and_assoc]

/-- C8: `unknown_params` lists all `Old`-tagged entries (in old-side
declaration order) before all `New`-tagged ones (in new-side declaration
order); `unknown_results` lists all `New`-tagged entries before all
`Old`-tagged ones. -/
theorem spec_c8 {Ty : Type} (rep : Ty → Ty → RepEquality)
    (newf oldf : InterfaceFunc Ty) :
    (FuncPolyfill.build rep newf oldf).unknown_params =
      (oldf.params.filter
          (fun op => (newf.params.find? (fun p => p.name == op.name)).isNone)).map
          ParamUnknown.Old
      ++ (newf.params.filter
          (fun np => ((FuncPolyfill.build rep newf oldf).mapped_params.find?
            (fun m => m.new.name == np.name)).isNone)).map
          ParamUnknown.New
    ∧ (FuncPolyfill.build rep newf oldf).unknown_results =
      (newf.results.filter
          (fun nr => (oldf.results.find? (fun p => p.name == nr.name)).isNone)).map
          ParamUnknown.New
      ++ (oldf.results.filter
          (fun o => ((FuncPolyfill.build rep newf oldf).mapped_results.find?
            (fun m => m.old.name == o.name)).isNone)).map
          ParamUnknown.Old := by
  constructor
  · simp only [build_mapped_params]
    exact build_unknown_params rep newf oldf
  · simp only [build_mapped_results]
    exact build_unknown_results rep newf oldf

theorem isNone_eq_not_isSome {α : Type} (o : Option α) : o.isNone = !o.isSome := by
  cases o <;> rfl

theorem filterMap_getOld_map_Old {Ty : Type} (l : List (InterfaceFuncParam Ty)) :
    (l.map ParamUnknown.Old).filterMap ParamUnknown.getOld = l := by
  induction l with
  | nil => rfl
  | cons p rest ih => simp [List.filterMap_cons, ParamUnknown.getOld, ih]

theorem filterMap_getOld_map_New {Ty : Type} (l : List (InterfaceFuncParam Ty)) :
    (l.map ParamUnknown.New).filterMap ParamUnknown.getOld = [] := by
  induction l with
  | nil => rfl
  | cons p rest ih => simp [List.filterMap_cons, ParamUnknown.getOld, ih]

theorem filterMap_getNew_map_New {Ty : Type} (l : List (InterfaceFuncParam Ty)) :
    (l.map ParamUnknown.New).filterMap ParamUnknown.getNew = l := by
  induction l with
  | nil => rfl
  | cons p rest ih => simp [List.filterMap_cons, ParamUnknown.getNew, ih]

theorem filterMap_getNew_map_Old {Ty : Type} (l : List (InterfaceFuncParam Ty)) :
    (l.map ParamUnknown.Old).filterMap ParamUnknown.getNew = [] := by
  induction l with
  | nil => rfl
  | cons p rest ih => simp [List.filterMap_cons, ParamUnknown.getNew, ih]

theorem unknown_params_getOld {Ty : Type} (rep : Ty → Ty → RepEquality)
    (newf oldf : InterfaceFunc Ty) :
    (FuncPolyfill.build rep newf oldf).unknown_params.filterMap ParamUnknown.getOld
      = oldf.params.filter
          (fun op => (newf.params.find? (fun p => p.name == op.name)).isNone) := by
  rw [build_unknown_params, List.filterMap_append, filterMap_getOld_map_Old,
    filterMap_getOld_map_New, List.append_nil]

theorem unknown_params_getNew {Ty : Type} (rep : Ty → Ty → RepEquality)
    (newf oldf : InterfaceFunc Ty) :
    (FuncPolyfill.build rep newf oldf).unknown_params.filterMap ParamUnknown.getNew
      = newf.params.filter
          (fun np => ((oldf.params.filterMap (matchParam rep newf)).find?
            (fun m => m.new.name == np.name)).isNone) := by
  rw [build_unknown_params, List.filterMap_append, filterMap_getNew_map_Old,
    filterMap_getNew_map_New, List.nil_append]

theorem unknown_results_getNew {Ty : Type} (rep : Ty → Ty → RepEquality)
    (newf oldf : InterfaceFunc Ty) :
    (FuncPolyfill.build rep newf oldf).unknown_results.filterMap ParamUnknown.getNew
      = newf.results.filter
          (fun nr => (oldf.results.find? (fun p => p.name == nr.name)).isNone) := by
  rw [build_unknown_results, List.filterMap_append, filterMap_getNew_map_New,
    filterMap_getNew_map_Old, List.append_nil]

theorem unknown_results_getOld {Ty : Type} (rep : Ty → Ty → RepEquality)
    (newf oldf : InterfaceFunc Ty) :
    (FuncPolyfill.build rep newf oldf).unknown_results.filterMap ParamUnknown.getOld
      = oldf.results.filter
          (fun o => ((newf.results.filterMap (matchResult rep oldf)).find?
            (fun m => m.old.name == o.name)).isNone) := by
  rw [build_unknown_results, List.filterMap_append, filterMap_getOld_map_New,
    filterMap_getOld_map_Old, List.nil_append]

theorem mapped_params_perm {Ty : Type} (rep : Ty → Ty → RepEquality)
    (newf oldf : InterfaceFunc Ty) :
    ((FuncPolyfill.build rep newf oldf).mapped_params.map (fun pp => pp.old)
      ++ (FuncPolyfill.build rep newf oldf).unknown_params.filterMap
          ParamUnknown.getOld).Perm oldf.params := by
  rw [build_mapped_params, unknown_params_getOld, map_old_filterMap_matchParam]
  have h : oldf.params.filter
        (fun op => (newf.params.find? (fun p => p.name == op.name)).isNone)
      = oldf.params.filter
        (fun op => !(newf.params.find? (fun p => p.name == op.name)).isSome) :=
    List.filter_congr (fun op _ => isNone_eq_not_isSome _)
  rw [h]
  exact List.filter_append_perm _ _

theorem mapped_results_perm {Ty : Type} (rep : Ty → Ty → RepEquality)
    (newf oldf : InterfaceFunc Ty) :
    ((FuncPolyfill.build rep newf oldf).mapped_results.map (fun pp => pp.new)
      ++ (FuncPolyfill.build rep newf oldf).unknown_results.filterMap
          ParamUnknown.getNew).Perm newf.results := by
  rw [build_mapped_results, unknown_results_getNew, map_new_filterMap_matchResult]
  have h : newf.results.filter
        (fun nr => (oldf.results.find? (fun p => p.name == nr.name)).isNone)
      = newf.results.filter
        (fun nr => !(oldf.results.find? (fun p => p.name == nr.name)).isSome) :=
    List.filter_congr (fun nr _ => isNone_eq_not_isSome _)
  rw [h]
  exact List.filter_append_perm _ _

/-- C2: partition laws of `FuncPolyfill::new`.  On the parameter side the
mapped pairs and the `Old`-tagged unknowns together account for every old
parameter exactly once (lengths add up, their union is a permutation of the
old parameter list, and every old parameter lands in exactly one of the two),
and the `New`-tagged unknowns are exactly the new parameters matched by no
mapped pair.  On the result side the same laws hold with the sides reversed:
mapped pairs plus `New`-tagged unknowns partition the new result list, and
the `Old`-tagged unknowns are exactly the old results matched by no mapped
pair. -/
theorem spec_c2 {Ty : Type} (rep : Ty → Ty → RepEquality)
    (newf oldf : InterfaceFunc Ty) (f : FuncPolyfill Ty)
    (hf : f = FuncPolyfill.build rep newf oldf) :
    (f.mapped_params.length
        + (f.unknown_params.filterMap ParamUnknown.getOld).length
      = oldf.params.length)
    ∧ (f.mapped_params.map (fun pp => pp.old)
        ++ f.unknown_params.filterMap ParamUnknown.getOld).Perm oldf.params
    ∧ (∀ op ∈ oldf.params,
        (op ∈ f.mapped_params.map (fun pp => pp.old)
            ∧ op ∉ f.unknown_params.filterMap ParamUnknown.getOld)
        ∨ (op ∉ f.mapped_params.map (fun pp => pp.old)
            ∧ op ∈ f.unknown_params.filterMap ParamUnknown.getOld))
    ∧ (f.unknown_params.filterMap ParamUnknown.getNew
        = newf.params.filter
            (fun np => (f.mapped_params.find?
              (fun m => m.new.name == np.name)).isNone))
    ∧ (f.mapped_results.length
        + (f.unknown_results.filterMap ParamUnknown.getNew).length
      = newf.results.length)
    ∧ (f.mapped_results.map (fun pp => pp.new)
        ++ f.unknown_results.filterMap ParamUnknown.getNew).Perm newf.results
    ∧ (∀ nr ∈ newf.results,
        (nr ∈ f.mapped_results.map (fun pp => pp.new)
            ∧ nr ∉ f.unknown_results.filterMap ParamUnknown.getNew)
        ∨ (nr ∉ f.mapped_results.map (fun pp => pp.new)
            ∧ nr ∈ f.unknown_results.filterMap ParamUnknown.getNew))
    ∧ (f.unknown_results.filterMap ParamUnknown.getOld
        = oldf.results.filter
            (fun o => (f.mapped_results.find?
              (fun m => m.old.name == o.name)).isNone)) := by
  subst hf
  refine ⟨?_, mapped_params_perm rep newf oldf, ?_, ?_, ?_,
    mapped_results_perm rep newf oldf, ?_, ?_⟩
  · have h := (mapped_params_perm rep newf oldf).length_eq
    simpa [List.length_append] using h
  · intro op hop
    rw [build_mapped_params, unknown_params_getOld, map_old_filterMap_matchParam]
    rcases Bool.eq_false_or_eq_true
        ((newf.params.find? (fun p => p.name == op.name)).isSome) with h | h
    · refine Or.inl ⟨List.mem_filter.2 ⟨hop, h⟩, fun hc => ?_⟩
      have hmem : (newf.params.find? (fun p => p.name == op.name)).isNone = true :=
        (List.mem_filter.1 hc).2
      rw [isNone_eq_not_isSome, h] at hmem
      exact absurd hmem (by decide)
    · refine Or.inr ⟨fun hc => ?_, List.mem_filter.2 ⟨hop, ?_⟩⟩
      · have hmem : (newf.params.find? (fun p => p.name == op.name)).isSome = true :=
          (List.mem_filter.1 hc).2
        rw [h] at hmem
        exact absurd hmem (by decide)
      · show (newf.params.find? (fun p => p.name == op.name)).isNone = true
        rw [isNone_eq_not_isSome, h]
        rfl
  · rw [build_mapped_params]
    exact unknown_params_getNew rep newf oldf
  · have h := (mapped_results_perm rep newf oldf).length_eq
    simpa [List.length_append] using h
  · intro nr hnr
    rw [build_mapped_results, unknown_results_getNew, map_new_filterMap_matchResult]
    rcases Bool.eq_false_or_eq_true
        ((oldf.results.find? (fun p => p.name == nr.name)).isSome) with h | h
    · refine Or.inl ⟨List.mem_filter.2 ⟨hnr, h⟩, fun hc => ?_⟩
      have hmem : (oldf.results.find? (fun p => p.name == nr.name)).isNone = true :=
        (List.mem_filter.1 hc).2
      rw [isNone_eq_not_isSome, h] at hmem
      exact absurd hmem (by decide)
    · refine Or.inr ⟨fun hc => ?_, List.mem_filter.2 ⟨hnr, ?_⟩⟩
      · have hmem : (oldf.results.find? (fun p => p.name == nr.name)).isSome = true :=
          (List.mem_filter.1 hc).2
        rw [h] at hmem
        exact absurd hmem (by decide)
      · show (oldf.results.find? (fun p => p.name == nr.name)).isNone = true
        rw [isNone_eq_not_isSome, h]
        rfl
  · rw [build_mapped_results]
    exact unknown_results_getOld rep newf oldf

/-- Witness for C2 on the fixture functions: the old parameter `a` lands in
the mapped collection and not among the `Old`-tagged unknowns. -/
theorem spec_c2_witness :
    (pA32 ∈ (FuncPolyfill.build repNat newFoo oldFoo).mapped_params.map
          (fun pp => pp.old)
        ∧ pA32 ∉ (FuncPolyfill.build repNat newFoo oldFoo).unknown_params.filterMap
          ParamUnknown.getOld)
    ∨ (pA32 ∉ (FuncPolyfill.build repNat newFoo oldFoo).mapped_params.map
          (fun pp => pp.old)
        ∧ pA32 ∈ (FuncPolyfill.build repNat newFoo oldFoo).unknown_params.filterMap
          ParamUnknown.getOld) :=
  (spec_c2 repNat newFoo oldFoo (FuncPolyfill.build repNat newFoo oldFoo)
    rfl).2.2.1 pA32 (by decide)

/-- C10: `mapped_params` follows the old function's parameter declaration
order, each old parameter matched with the first same-named new parameter;
`mapped_results` follows the new function's result declaration order, each
new result matched with the first same-named old result. -/
theorem spec_c10 {Ty : Type} (rep : Ty → Ty → RepEquality)
    (newf oldf : InterfaceFunc Ty) :
    (FuncPolyfill.build rep newf oldf).mapped_params =
      oldf.params.filterMap (fun op =>
        (newf.params.find? (fun p => p.name == op.name)).map (fun np =>
          { new := np, old := op, repeq := rep op.tref.type_ np.tref.type_ }))
    ∧ (FuncPolyfill.build rep newf oldf).mapped_results =
      newf.results.filterMap (fun nr =>
        (oldf.results.find? (fun p => p.name == nr.name)).map (fun o =>
          { new := nr, old := o, repeq := rep nr.tref.type_ o.tref.type_ }))
    ∧ (∀ pp ∈ (FuncPolyfill.build rep newf oldf).mapped_params,
        newf.params.find? (fun p => p.name == pp.old.name) = some pp.new)
    ∧ (∀ pp ∈ (FuncPolyfill.build rep newf oldf).mapped_results,
        oldf.results.find? (fun p => p.name == pp.new.name) = some pp.old) := by
  refine ⟨build_mapped_params rep newf oldf, build_mapped_results rep newf oldf,
    ?_, ?_⟩
  · intro pp hpp
    rw [build_mapped_params] at hpp
    rcases List.mem_filterMap.1 hpp with ⟨op, _, hm⟩
    simp only [matchParam] at hm
    rcases Option.map_eq_some'.1 hm with ⟨np, hfind, rfl⟩
    exact hfind
  · intro pp hpp
    rw [build_mapped_results] at hpp
    rcases List.mem_filterMap.1 hpp with ⟨nr, _, hm⟩
    simp only [matchResult] at hm
    rcases Option.map_eq_some'.1 hm with ⟨o, hfind, rfl⟩
    exact hfind

/-- Witness for C10's conditional parts on the fixture functions: the first
same-named new parameter for the mapped pair of `a` is `a: int64`. -/
theorem spec_c10_witness :
    newFoo.params.find? (fun p => p.name == ppA.old.name) = some ppA.new :=
  (spec_c10 repNat newFoo oldFoo).2.2.1 ppA (by decide)

/-- A function found in a module by name bears that name. -/
theorem Module.func_name {Ty : Type} (m : Module Ty) (name : Id)
    (g : InterfaceFunc Ty) (h : m.func name = some g) : g.name = name := by
  simp only [Module.func] at h
  have hg := List.find?_some h
  simpa using hg

/-- Every function polyfill collected by the loop of `ModulePolyfill::new`
pairs an old function with the new function found under the old name. -/
theorem modFuncs_ok {Ty : Type} (rep : Ty → Ty → RepEquality)
    (newm : Module Ty) (l : List (InterfaceFunc Ty))
    (fs : List (FuncPolyfill Ty)) (h : modFuncs rep newm l = Except.ok fs) :
    ∀ f ∈ fs, f.new.name = f.old.name := by
  induction l generalizing fs with
  | nil =>
    simp only [modFuncs] at h
    cases h
    intro f hf
    cases hf
  | cons g rest ih =>
    simp only [modFuncs] at h
    split at h
    · cases h
    · rename_i nf hfind
      split at h
      · cases h
      · rename_i fs' hrec
        cases h
        intro f hf
        rcases List.mem_cons.1 hf with rfl | hf'
        · rw [build_new, build_old]
          exact Module.func_name newm g.name nf hfind
        · exact ih fs' hrec f hf'

/-- C9: every `FuncPolyfill` inside a successfully constructed
`ModulePolyfill` has equal new and old function names (the new function is
looked up under the old function's name), so for such values the report
header is always the bare name — never the rename form — and `full_compat`
reduces to the conditions on the mapped and unknown lists alone. -/
theorem spec_c9 {Ty : Type} (rep : Ty → Ty → RepEquality)
    (newm oldm : Module Ty) (mp : ModulePolyfill Ty)
    (h : ModulePolyfill.build rep newm oldm = Except.ok mp) :
    ∀ f ∈ mp.funcs,
      f.new.name = f.old.name
      ∧ f.reportName = f.new.name.as_str
      ∧ f.full_compat = (f.mapped_params.all (fun p => p.full_compat)
          && f.unknown_params.isEmpty
          && f.mapped_results.all (fun p => p.full_compat)
          && f.unknown_results.isEmpty) := by
  intro f hf
  have hname : f.new.name = f.old.name := by
    unfold ModulePolyfill.build at h
    split at h
    · cases h
    · rename_i fs hfs
      cases h
      exact modFuncs_ok rep newm oldm.funcs fs hfs f (by simpa using hf)
  refine ⟨hname, ?_, ?_⟩
  · simp [FuncPolyfill.reportName, hname]
  · simp [FuncPolyfill.full_compat, hname]

/-- Old fixture module holding `oldFoo`. -/
def oldMod : Module Nat := { name := Id.new "wasi_old", funcs := [oldFoo] }

/-- New fixture module holding `newFoo`. -/
def newMod : Module Nat := { name := Id.new "wasi_new", funcs := [newFoo] }

/-- The module polyfill built from the fixture modules. -/
def mpFix : ModulePolyfill Nat :=
  { new := newMod, old := oldMod, funcs := [FuncPolyfill.build repNat newFoo oldFoo] }

/-- Witness for C9 on the fixture modules. -/
theorem spec_c9_witness :
    (FuncPolyfill.build repNat newFoo oldFoo).new.name
        = (FuncPolyfill.build repNat newFoo oldFoo).old.name
      ∧ (FuncPolyfill.build repNat newFoo oldFoo).reportName
        = (FuncPolyfill.build repNat newFoo oldFoo).new.name.as_str
      ∧ (FuncPolyfill.build repNat newFoo oldFoo).full_compat
        = ((FuncPolyfill.build repNat newFoo oldFoo).mapped_params.all
              (fun p => p.full_compat)
            && (FuncPolyfill.build repNat newFoo oldFoo).unknown_params.isEmpty
            && (FuncPolyfill.build repNat newFoo oldFoo).mapped_results.all
              (fun p => p.full_compat)
            && (FuncPolyfill.build repNat newFoo oldFoo).unknown_results.isEmpty) :=
  spec_c9 repNat newMod oldMod mpFix (by rfl)
    (FuncPolyfill.build repNat newFoo oldFoo) (by decide)

theorem modFuncs_missing {Ty : Type} (rep : Ty → Ty → RepEquality)
    (newm : Module Ty) (pre : List (InterfaceFunc Ty)) (f : InterfaceFunc Ty)
    (post : List (InterfaceFunc Ty))
    (hpre : ∀ g ∈ pre, (newm.func g.name).isSome)
    (hf : newm.func f.name = none) :
    modFuncs rep newm (pre ++ f :: post)
      = Except.error (PolyfillError.FuncNotPresent f.name) := by
  induction pre with
  | nil => simp [modFuncs, hf]
  | cons g pre ih =>
    obtain ⟨ng, hng⟩ :=
      Option.isSome_iff_exists.1 (hpre g (List.mem_cons_self g pre))
    have ih' := ih (fun g' h' => hpre g' (List.mem_cons_of_mem g h'))
    simp [modFuncs, hng, ih']

theorem modFuncs_total_ok {Ty : Type} (rep : Ty → Ty → RepEquality)
    (newm : Module Ty) (l : List (InterfaceFunc Ty))
    (h : ∀ g ∈ l, (newm.func g.name).isSome) :
    ∃ fs, modFuncs rep newm l = Except.ok fs := by
  induction l with
  | nil => exact ⟨[], rfl⟩
  | cons g rest ih =>
    obtain ⟨ng, hng⟩ :=
      Option.isSome_iff_exists.1 (h g (List.mem_cons_self g rest))
    obtain ⟨fs, hfs⟩ := ih (fun g' h' => h g' (List.mem_cons_of_mem g h'))
    exact ⟨FuncPolyfill.build rep ng g :: fs, by simp [modFuncs, hng, hfs]⟩

theorem ModulePolyfill_build_missing {Ty : Type} (rep : Ty → Ty → RepEquality)
    (newm oldm : Module Ty) (pre : List (InterfaceFunc Ty))
    (f : InterfaceFunc Ty) (post : List (InterfaceFunc Ty))
    (hsplit : oldm.funcs = pre ++ f :: post)
    (hpre : ∀ g ∈ pre, (newm.func g.name).isSome)
    (hf : newm.func f.name = none) :
    ModulePolyfill.build rep newm oldm
      = Except.error (PolyfillError.FuncNotPresent f.name) := by
  unfold ModulePolyfill.build
  rw [hsplit, modFuncs_missing rep newm pre f post hpre hf]

theorem ModulePolyfill_build_ok {Ty : Type} (rep : Ty → Ty → RepEquality)
    (newm oldm : Module Ty)
    (h : ∀ g ∈ oldm.funcs, (newm.func g.name).isSome) :
    ∃ mp, ModulePolyfill.build rep newm oldm = Except.ok mp := by
  obtain ⟨fs, hfs⟩ := modFuncs_total_ok rep newm oldm.funcs h
  exact ⟨{ new := newm, old := oldm, funcs := fs },
    by unfold ModulePolyfill.build; rw [hfs]⟩

theorem polyModules_missing_new {Ty : Type} (rep : Ty → Ty → RepEquality)
    (newd oldd : Document Ty) (pre : List (String × String)) (n o : String)
    (post : List (String × String))
    (hpre : ∀ e ∈ pre, ∃ nm om mp, newd.module (Id.new e.1) = some nm
        ∧ oldd.module (Id.new e.2) = some om
        ∧ ModulePolyfill.build rep nm om = Except.ok mp)
    (hn : newd.module (Id.new n) = none) :
    polyModules rep newd oldd (pre ++ (n, o) :: post)
      = Except.error (PolyfillError.ModuleNotPresent (Id.new n)) := by
  induction pre with
  | nil => simp [polyModules, hn]
  | cons e pre ih =>
    obtain ⟨nm, om, mp, h1, h2, h3⟩ := hpre e (List.mem_cons_self e pre)
    have ih' := ih (fun e' h' => hpre e' (List.mem_cons_of_mem e h'))
    rcases e with ⟨en, eo⟩
    simp [polyModules, h1, h2, h3, ih']

theorem polyModules_missing_old {Ty : Type} (rep : Ty → Ty → RepEquality)
    (newd oldd : Document Ty) (pre : List (String × String)) (n o : String)
    (post : List (String × String)) (nm : Module Ty)
    (hpre : ∀ e ∈ pre, ∃ nm' om mp, newd.module (Id.new e.1) = some nm'
        ∧ oldd.module (Id.new e.2) = some om
        ∧ ModulePolyfill.build rep nm' om = Except.ok mp)
    (hn : newd.module (Id.new n) = some nm)
    (ho : oldd.module (Id.new o) = none) :
    polyModules rep newd oldd (pre ++ (n, o) :: post)
      = Except.error (PolyfillError.ModuleNotPresent (Id.new o)) := by
  induction pre with
  | nil => simp [polyModules, hn, ho]
  | cons e pre ih =>
    obtain ⟨nm', om, mp, h1, h2, h3⟩ := hpre e (List.mem_cons_self e pre)
    have ih' := ih (fun e' h' => hpre e' (List.mem_cons_of_mem e h'))
    rcases e with ⟨en, eo⟩
    simp [polyModules, h1, h2, h3, ih']

theorem polyModules_ok {Ty : Type} (rep : Ty → Ty → RepEquality)
    (newd oldd : Document Ty) (mapping : List (String × String))
    (h : ∀ e ∈ mapping, ∃ nm om, newd.module (Id.new e.1) = some nm
        ∧ oldd.module (Id.new e.2) = some om
        ∧ ∀ g ∈ om.funcs, (nm.func g.name).isSome) :
    ∃ ms, polyModules rep newd oldd mapping = Except.ok ms := by
  induction mapping with
  | nil => exact ⟨[], rfl⟩
  | cons e rest ih =>
    obtain ⟨nm, om, h1, h2, h3⟩ := h e (List.mem_cons_self e rest)
    obtain ⟨mp, hmp⟩ := ModulePolyfill_build_ok rep nm om h3
    obtain ⟨ms, hms⟩ := ih (fun e' h' => h e' (List.mem_cons_of_mem e h'))
    rcases e with ⟨en, eo⟩
    exact ⟨mp :: ms, by simp [polyModules, h1, h2, hmp, hms]⟩

/-- C3: `Polyfill::new` fails on the first missing module of the mapping,
the new side of an entry checked before the old side, returning the error
alone (no partial `Polyfill`); `ModulePolyfill::new` fails on the first old
function with no same-named new function, whatever functions follow it; and
when nothing is missing both constructions return `Ok`. -/
theorem spec_c3 {Ty : Type} (rep : Ty → Ty → RepEquality) :
    (∀ (newd oldd : Document Ty) (pre : List (String × String)) (n o : String)
        (post : List (String × String)),
      (∀ e ∈ pre, ∃ nm om mp, newd.module (Id.new e.1) = some nm
          ∧ oldd.module (Id.new e.2) = some om
          ∧ ModulePolyfill.build rep nm om = Except.ok mp) →
      newd.module (Id.new n) = none →
      Polyfill.new rep newd oldd (pre ++ (n, o) :: post)
        = Except.error (PolyfillError.ModuleNotPresent (Id.new n)))
    ∧ (∀ (newd oldd : Document Ty) (pre : List (String × String)) (n o : String)
        (post : List (String × String)) (nm : Module Ty),
      (∀ e ∈ pre, ∃ nm' om mp, newd.module (Id.new e.1) = some nm'
          ∧ oldd.module (Id.new e.2) = some om
          ∧ ModulePolyfill.build rep nm' om = Except.ok mp) →
      newd.module (Id.new n) = some nm →
      oldd.module (Id.new o) = none →
      Polyfill.new rep newd oldd (pre ++ (n, o) :: post)
        = Except.error (PolyfillError.ModuleNotPresent (Id.new o)))
    ∧ (∀ (newm oldm : Module Ty) (pre : List (InterfaceFunc Ty))
        (f : InterfaceFunc Ty) (post : List (InterfaceFunc Ty)),
      oldm.funcs = pre ++ f :: post →
      (∀ g ∈ pre, (newm.func g.name).isSome) →
      newm.func f.name = none →
      ModulePolyfill.build rep newm oldm
        = Except.error (PolyfillError.FuncNotPresent f.name))
    ∧ (∀ (newm oldm : Module Ty),
      (∀ g ∈ oldm.funcs, (newm.func g.name).isSome) →
      ∃ mp, ModulePolyfill.build rep newm oldm = Except.ok mp)
    ∧ (∀ (newd oldd : Document Ty) (mapping : List (String × String)),
      (∀ e ∈ mapping, ∃ nm om, newd.module (Id.new e.1) = some nm
          ∧ oldd.module (Id.new e.2) = some om
          ∧ ∀ g ∈ om.funcs, (nm.func g.name).isSome) →
      ∃ p, Polyfill.new rep newd oldd mapping = Except.ok p) := by
  refine ⟨?_, ?_, ?_, ?_, ?_⟩
  · intro newd oldd pre n o post hpre hn
    unfold Polyfill.new
    rw [polyModules_missing_new rep newd oldd pre n o post hpre hn]
  · intro newd oldd pre n o post nm hpre hn ho
    unfold Polyfill.new
    rw [polyModules_missing_old rep newd oldd pre n o post nm hpre hn ho]
  · exact fun newm oldm pre f post hs hp hf =>
      ModulePolyfill_build_missing rep newm oldm pre f post hs hp hf
  · exact fun newm oldm h => ModulePolyfill_build_ok rep newm oldm h
  · intro newd oldd mapping h
    obtain ⟨ms, hms⟩ := polyModules_ok rep newd oldd mapping h
    exact ⟨{ modules := ms }, by unfold Polyfill.new; rw [hms]⟩

/-- New fixture document holding `newMod`. -/
def newDoc : Document Nat := { modules := [newMod] }

/-- Old fixture document holding `oldMod`. -/
def oldDoc : Document Nat := { modules := [oldMod] }

/-- Witness for C3 on the fixture documents: a mapping entry naming a module
absent from the new document makes `Polyfill::new` fail with
`ModuleNotPresent` on the new-side name. -/
theorem spec_c3_witness :
    Polyfill.new repNat newDoc oldDoc [("ghost", "wasi_old")]
      = Except.error (PolyfillError.ModuleNotPresent (Id.new "ghost")) :=
  (spec_c3 repNat).1 newDoc oldDoc [] "ghost" "wasi_old" []
    (by simp) (by decide)

theorem string_data_append (s t : String) : (s ++ t).data = s.data ++ t.data := by
  cases s
  cases t
  rfl

theorem joinSep_infix_of_mem (sep x : String) (L : List String) (h : x ∈ L) :
    ∃ a b, joinSep sep L = a ++ x ++ b := by
  induction L with
  | nil => cases h
  | cons s rest ih =>
    cases rest with
    | nil =>
      rcases List.mem_singleton.1 h with rfl
      refine ⟨"", "", ?_⟩
      simp [joinSep]
    | cons t rest' =>
      rcases List.mem_cons.1 h with rfl | h'
      · refine ⟨"", sep ++ joinSep sep (t :: rest'), ?_⟩
        simp [joinSep, String.append_assoc]
      · obtain ⟨a, b, hab⟩ := ih h'
        refine ⟨s ++ sep ++ a, b, ?_⟩
        simp [joinSep, hab, String.append_assoc]

theorem report_not_full_compat {Ty : Type} (f : FuncPolyfill Ty)
    (h : f.full_compat = false) :
    f.report = f.reportName
      ++ (if f.reportContents.isEmpty then ""
          else ":\n\t\t" ++ joinSep "\n\t\t" f.reportContents) := by
  simp [FuncPolyfill.report, h]

theorem reportContents_eq_nil_iff {Ty : Type} (f : FuncPolyfill Ty) :
    f.reportContents = []
      ↔ (f.mapped_params = [] ∧ f.unknown_params = []
          ∧ f.mapped_results = [] ∧ f.unknown_results = []) := by
  simp [FuncPolyfill.reportContents, List.append_eq_nil]

/-- C7: on a `FuncPolyfill` that is not fully compatible, every unmatched
parameter contributes the report line
`"<old|new> param <name>: no corresponding result!"` and every unmatched
result the line `"<old|new> result <name>: no corresponding result!"` — the
trailing words are literally `"no corresponding result!"` even for
parameters. -/
theorem spec_c7 {Ty : Type} (f : FuncPolyfill Ty) (h : f.full_compat = false) :
    (∀ u ∈ f.unknown_params,
      (u.which ++ " param " ++ u.param.name.as_str
          ++ ": no corresponding result!") ∈ f.reportContents
      ∧ ∃ a b, f.report = a ++ (u.which ++ " param " ++ u.param.name.as_str
          ++ ": no corresponding result!") ++ b)
    ∧ (∀ u ∈ f.unknown_results,
      (u.which ++ " result " ++ u.param.name.as_str
          ++ ": no corresponding result!") ∈ f.reportContents
      ∧ ∃ a b, f.report = a ++ (u.which ++ " result " ++ u.param.name.as_str
          ++ ": no corresponding result!") ++ b) := by
  have key : ∀ s, s ∈ f.reportContents →
      ∃ a b, f.report = a ++ s ++ b := by
    intro s hmem
    have hne : f.reportContents.isEmpty = false := by
      cases hL : f.reportContents with
      | nil => rw [hL] at hmem; cases hmem
      | cons c cs => rfl
    obtain ⟨a, b, hab⟩ := joinSep_infix_of_mem "\n\t\t" s f.reportContents hmem
    refine ⟨f.reportName ++ (":\n\t\t" ++ a), b, ?_⟩
    rw [report_not_full_compat f h, hne]
    simp [hab, String.append_assoc]
  constructor
  · intro u hu
    have hmem : (u.which ++ " param " ++ u.param.name.as_str
        ++ ": no corresponding result!") ∈ f.reportContents := by
      unfold FuncPolyfill.reportContents
      refine List.mem_append_left _ ?_
      refine List.mem_append_left _ ?_
      refine List.mem_append_right _ ?_
      exact List.mem_map_of_mem _ hu
    exact ⟨hmem, key _ hmem⟩
  · intro u hu
    have hmem : (u.which ++ " result " ++ u.param.name.as_str
        ++ ": no corresponding result!") ∈ f.reportContents := by
      unfold FuncPolyfill.reportContents
      refine List.mem_append_right _ ?_
      exact List.mem_map_of_mem _ hu
    exact ⟨hmem, key _ hmem⟩

/-- Witness for C7 on the fixture functions: the old-only parameter `x`
contributes the line `"old param x: no corresponding result!"`. -/
theorem spec_c7_witness :
    ((ParamUnknown.Old pX32).which ++ " param "
        ++ (ParamUnknown.Old pX32).param.name.as_str
        ++ ": no corresponding result!")
      ∈ (FuncPolyfill.build repNat newFoo oldFoo).reportContents
    ∧ ∃ a b, (FuncPolyfill.build repNat newFoo oldFoo).report
        = a ++ ((ParamUnknown.Old pX32).which ++ " param "
            ++ (ParamUnknown.Old pX32).param.name.as_str
            ++ ": no corresponding result!") ++ b :=
  (spec_c7 (FuncPolyfill.build repNat newFoo oldFoo) (by decide)).1
    (ParamUnknown.Old pX32) (by decide)

/-- C4: `full_compat` holds exactly when the report is the single line
`"<name>: full compatibility"` built from the new function's name. -/
theorem spec_c4 {Ty : Type} (f : FuncPolyfill Ty) :
    f.full_compat = true
      ↔ f.report = f.new.name.as_str ++ ": full compatibility" := by
  constructor
  · intro h
    simp [FuncPolyfill.report, h]
  · intro h
    by_contra hfc
    have hfc' : f.full_compat = false := by
      cases hb : f.full_compat
      · rfl
      · exact absurd hb hfc
    rw [report_not_full_compat f hfc'] at h
    rcases Bool.eq_false_or_eq_true (f.new.name == f.old.name) with hn | hn
    · -- names are equal: the report has contents, so its tail starts with a
      -- newline where the full-compatibility line has a space
      have hrn : f.reportName = f.new.name.as_str := by
        simp [FuncPolyfill.reportName, bne, hn]
      have hne : f.reportContents ≠ [] := by
        intro hnil
        rcases (reportContents_eq_nil_iff f).1 hnil with ⟨h1, h2, h3, h4⟩
        simp [FuncPolyfill.full_compat, hn, h1, h2, h3, h4] at hfc'
      have hL : f.reportContents.isEmpty = false := by
        cases hc : f.reportContents with
        | nil => exact absurd hc hne
        | cons c cs => rfl
      rw [hL, hrn] at h
      simp only [Bool.false_eq_true, if_false] at h
      have hd := congrArg String.data h
      simp only [string_data_append] at hd
      have hd' := List.append_cancel_left hd
      simp at hd'
    · -- names differ: the rename header contains an equals sign the
      -- full-compatibility line cannot contain
      have hrn : f.reportName
          = f.old.name.as_str ++ " => " ++ f.new.name.as_str := by
        simp [FuncPolyfill.reportName, bne, hn]
      rw [hrn] at h
      have hc := congrArg (fun s => s.data.count '=') h
      simp only [string_data_append, List.count_append] at hc
      have e1 : (" => ").data.count '=' = 1 := by decide
      have e2 : (": full compatibility").data.count '=' = 0 := by decide
      rw [e1, e2] at hc
      omega

end Witx
